import Mathlib

/-!
Shallow embedding of the monitoring/evaluation core of the stock alert
application: the advanced-alert condition evaluators
(src/services/advanced_alert_service.py), the cooldown gate, the
per-alert checks and the monitoring cycle
(src/services/monitoring_scheduler.py), and the baseline capture at
alert creation.  Python floats are modelled as rationals, timestamps as
rational seconds since the epoch, JSON condition dictionaries as
association lists, and Python exceptions as Except String results.
Database reads and writes are modelled as succeeding; the per-symbol
market data fetched from the price providers is supplied by an
environment record, one per alert.
-/

namespace StockAlerts

/-- JSON-style value held in an advanced alert's conditions dictionary or
in an evaluation context dictionary (an entry of a Python dict decoded
from the stored JSON). -/
inductive JVal where
  | null : JVal
  | num (q : ℚ) : JVal
  | str (s : String) : JVal
  deriving DecidableEq, Repr

/-- Python equality of a dictionary value against a string literal: only a
string with the same characters compares equal. -/
def jvalEqStr : JVal → String → Bool
  | JVal.str s, t => s == t
  | _, _ => false

/-- Python truthiness of a dictionary value: None, 0 and the empty string
are falsy. -/
def jvalTruthy : JVal → Bool
  | JVal.null => false
  | JVal.num q => decide (q ≠ 0)
  | JVal.str s => !(s == "")

/-- Python a or b on dictionary values: the first operand when truthy,
otherwise the second. -/
def pyOr (a b : JVal) : JVal := if jvalTruthy a then a else b

/-- A conditions or context dictionary: association list keyed by strings,
first binding wins on lookup. -/
abbrev Conditions := List (String × JVal)

/-- Python cond.get(k, dflt). -/
def condGet (cond : Conditions) (k : String) (dflt : JVal) : JVal :=
  match cond.find? (fun p => p.1 == k) with
  | some p => p.2
  | none => dflt

/-- Python k in cond. -/
def condHas (cond : Conditions) (k : String) : Bool :=
  (cond.find? (fun p => p.1 == k)).isSome

/-- Python cond[k] = v on a dictionary known not to hold k yet. -/
def condSet (cond : Conditions) (k : String) (v : JVal) : Conditions :=
  cond ++ [(k, v)]

/-- Numeric value of a decimal digit character. -/
def digitVal (c : Char) : Option Nat :=
  if c.isDigit then some (c.toNat - 48) else none

/-- Parse a nonempty run of decimal digits. -/
def parseDigits (cs : List Char) : Option Nat :=
  if cs.isEmpty then none
  else cs.foldl (fun acc c => acc.bind (fun a => (digitVal c).map (fun d => a * 10 + d))) (some 0)

/-- Split a character list at the dot separators. -/
def splitOnDot : List Char → List (List Char)
  | [] => [[]]
  | c :: rest =>
    let r := splitOnDot rest
    if c = '.' then [] :: r
    else
      match r with
      | [] => [[c]]
      | h :: t => (c :: h) :: t

/-- Parse a signed decimal literal the way Python float(...) accepts plain
decimal strings (sign, digits, optional fractional part); other strings
fail. -/
def parseDecimal (s : String) : Option ℚ :=
  let cs := s.toList
  let sgnBody : ℚ × List Char :=
    match cs with
    | '-' :: rest => (-1, rest)
    | '+' :: rest => (1, rest)
    | _ => (1, cs)
  match splitOnDot sgnBody.2 with
  | [i] => (parseDigits i).map (fun n => sgnBody.1 * (n : ℚ))
  | [i, f] =>
    if i.isEmpty && f.isEmpty then none
    else
      match (if i.isEmpty then some 0 else parseDigits i),
            (if f.isEmpty then some 0 else parseDigits f) with
      | some n, some m => some (sgnBody.1 * ((n : ℚ) + (m : ℚ) / (10 : ℚ) ^ f.length))
      | _, _ => none
  | _ => none

/-- Python float(v) on a dictionary value: numbers pass through, decimal
strings parse, anything else raises. -/
def pyFloat : JVal → Except String ℚ
  | JVal.num q => Except.ok q
  | JVal.str s =>
    match parseDecimal s with
    | some q => Except.ok q
    | none => Except.error ("ValueError: could not convert string to float: " ++ s)
  | JVal.null => Except.error "TypeError: float() argument is None"

/-- Truncation of a rational toward zero, as Python int() on a float. -/
def ratTrunc (q : ℚ) : ℤ := if 0 ≤ q then ⌊q⌋ else ⌈q⌉

/-- Parse a signed integer literal as Python int(...) on strings. -/
def parseInteger (s : String) : Option ℤ :=
  let cs := s.toList
  let sgnBody : ℤ × List Char :=
    match cs with
    | '-' :: rest => (-1, rest)
    | '+' :: rest => (1, rest)
    | _ => (1, cs)
  (parseDigits sgnBody.2).map (fun n => sgnBody.1 * (n : ℤ))

/-- Python int(v) on a dictionary value: floats truncate toward zero,
integer-literal strings parse, anything else raises. -/
def pyInt : JVal → Except String ℤ
  | JVal.num q => Except.ok (ratTrunc q)
  | JVal.str s =>
    match parseInteger s with
    | some n => Except.ok n
    | none => Except.error ("ValueError: invalid literal for int: " ++ s)
  | JVal.null => Except.error "TypeError: int() argument is None"

/-- Python str(v) as used inside an f-string for the diagnostic reason. -/
def pyStr : JVal → String
  | JVal.null => "None"
  | JVal.num q => toString q
  | JVal.str s => s

/-- Lift an optional number into a dictionary value (Python None / float). -/
def optToJVal : Option ℚ → JVal
  | some q => JVal.num q
  | none => JVal.null

/-- Asset class of an alert, AssetType in price_service.py. -/
inductive AssetType where
  | stock
  | crypto
  deriving DecidableEq, Repr

/-- Market data the external providers return for one symbol during one
cycle: each field is the outcome of the corresponding provider call
(price_service.get_price current price, alpha_vantage get_global_quote
price and previous close, coingecko price with 24h change, RSI and SMA
series of the last two points, single latest RSI and SMA points).  An
Except.error models the provider call raising. -/
structure MarketEnv where
  getPrice : Except String ℚ
  globalQuote : Except String (Option ℚ × Option ℚ)
  cgPriceChange : Except String (ℚ × ℚ)
  rsiSeries : Except String (List ℚ)
  rsiPoint : Except String ℚ
  smaSeries : Except String (List ℚ)
  smaPoint : Except String ℚ

/-- The meets expression of _eval_percentage_change (lines 241-245):
direction is the raw dictionary value compared against the three string
literals. -/
def pctMeets (direction : JVal) (change_pct threshold : ℚ) : Bool :=
  (jvalEqStr direction "up" && decide (change_pct ≥ threshold))
  || (jvalEqStr direction "down" && decide (change_pct ≤ -|threshold|))
  || (jvalEqStr direction "any" && decide (|change_pct| ≥ |threshold|))

/-- AdvancedAlertService._eval_percentage_change: reads direction,
change_percentage (via float) and comparison_base from the conditions,
computes change_pct from the selected comparison base, and returns the
meets flag with the context dictionary. -/
def evalPercentageChange (menv : MarketEnv) (asset_type : AssetType) (cond : Conditions) :
    Except String (Bool × Conditions) := do
  let direction := condGet cond "direction" (JVal.str "any")
  let threshold ← pyFloat (condGet cond "change_percentage" (JVal.num 0))
  let comparison_base := condGet cond "comparison_base" (JVal.str "24h")
  let pair ←
    if jvalEqStr comparison_base "baseline" then do
      let price ← menv.getPrice
      let base ← pyFloat (condGet cond "base_price" (JVal.num price))
      let change_pct : ℚ := if base ≠ 0 then ((price - base) / base) * 100 else 0
      Except.ok (change_pct,
        [("current_price", JVal.num price), ("base_price", JVal.num base),
         ("change_pct", JVal.num change_pct)])
    else if asset_type = AssetType.stock && jvalEqStr comparison_base "previous_close" then do
      let gq ← menv.globalQuote
      let change_pct : ℚ ←
        match gq.2 with
        | some pc =>
          if pc ≠ 0 then
            match gq.1 with
            | some pn => Except.ok (((pn - pc) / pc) * 100)
            | none => Except.error "TypeError: unsupported operand for None"
          else Except.ok 0
        | none => Except.ok 0
      Except.ok (change_pct,
        [("current_price", optToJVal gq.1), ("previous_close", optToJVal gq.2),
         ("change_pct", JVal.num change_pct)])
    else do
      let cg ← menv.cgPriceChange
      Except.ok (cg.2, [("current_price", JVal.num cg.1), ("change_pct", JVal.num cg.2)])
  Except.ok (pctMeets direction pair.1 threshold, pair.2)

/-- Outcome of the indicator-data fetching stage of
_eval_technical_indicator: a prior/current pair (prior is none for the
single-point operators), a short series, or an unsupported indicator. -/
inductive TechFetch where
  | insufficient : TechFetch
  | unsupported (name : String) : TechFetch
  | pts (prev : Option ℚ) (curr : ℚ) : TechFetch

/-- AdvancedAlertService._eval_technical_indicator: reads indicator,
operator, threshold (float) and period (int) from the conditions, only
supports stocks, fetches two points for the crossing operators and one
point otherwise, and evaluates the operator against the threshold. -/
def evalTechnicalIndicator (menv : MarketEnv) (asset_type : AssetType) (cond : Conditions) :
    Except String (Bool × Conditions) := do
  let indicator := condGet cond "indicator" JVal.null
  let operator := condGet cond "operator" (JVal.str "greater_than")
  let threshold ← pyFloat (condGet cond "threshold" (JVal.num 0))
  let _period ← pyInt (condGet cond "period" (JVal.num 14))
  if asset_type ≠ AssetType.stock then
    return (false, [("reason", JVal.str "indicators_supported_for_stocks_only")])
  let isCross := jvalEqStr operator "crosses_above" || jvalEqStr operator "crosses_below"
  let tf : TechFetch ←
    if jvalEqStr indicator "rsi" then
      if isCross then
        (menv.rsiSeries).map (fun series =>
          if series.length < 2 then TechFetch.insufficient
          else TechFetch.pts (some (series.getD 0 0)) (series.getD 1 0))
      else (menv.rsiPoint).map (fun c => TechFetch.pts none c)
    else if jvalEqStr indicator "sma" then
      if isCross then
        (menv.smaSeries).map (fun series =>
          if series.length < 2 then TechFetch.insufficient
          else TechFetch.pts (some (series.getD 0 0)) (series.getD 1 0))
      else (menv.smaPoint).map (fun c => TechFetch.pts none c)
    else Except.ok (TechFetch.unsupported (pyStr indicator))
  match tf with
  | TechFetch.insufficient =>
    return (false, [("reason", JVal.str "insufficient_points")])
  | TechFetch.unsupported n =>
    return (false, [("reason", JVal.str ("unsupported_indicator:" ++ n))])
  | TechFetch.pts prev curr =>
    let meets : Bool :=
      if jvalEqStr operator "greater_than" then decide (curr ≥ threshold)
      else if jvalEqStr operator "less_than" then decide (curr ≤ threshold)
      else if jvalEqStr operator "crosses_above" && prev.isSome then
        decide (prev.getD 0 < threshold) && decide (threshold ≤ curr)
      else if jvalEqStr operator "crosses_below" && prev.isSome then
        decide (prev.getD 0 > threshold) && decide (threshold ≥ curr)
      else false
    return (meets,
      [("indicator", indicator), ("value", JVal.num curr), ("prev", optToJVal prev),
       ("threshold", JVal.num threshold), ("operator", operator)])

/-- A stored advanced alert row, columns read by the monitoring cycle;
conditions is the decoded JSON dictionary. -/
structure AdvAlert where
  id : Nat
  asset_symbol : String
  asset_type : String
  alert_type : String
  conditions : Conditions
  last_triggered : Option ℚ
  last_checked : Option ℚ
  trigger_count : Nat
  deriving DecidableEq, Repr

/-- AdvancedAlertService.evaluate_and_maybe_trigger: dispatch on the
alert kind string; unknown kinds report unsupported_type without
raising. -/
def evaluate_and_maybe_trigger (menv : MarketEnv) (a : AdvAlert) :
    Except String (Bool × Conditions) :=
  let asset_type := if a.asset_type == "stock" then AssetType.stock else AssetType.crypto
  if a.alert_type == "percentage_change" then
    evalPercentageChange menv asset_type a.conditions
  else if a.alert_type == "technical_indicator" then
    evalTechnicalIndicator menv asset_type a.conditions
  else
    Except.ok (false, [("reason", JVal.str "unsupported_type")])

/-- Triggered flag of an evaluation outcome, none when the evaluation
raised. -/
def triggeredOf (r : Except String (Bool × Conditions)) : Option Bool :=
  match r with
  | Except.ok p => some p.1
  | Except.error _ => none

/-- Conditions transformation performed by AdvancedAlertService.create_alert
(lines 33-42): for a percentage_change alert with baseline comparison and
no base_price, the price fetched at creation time is stored under
base_price; getPrice is the creation-time price fetch. -/
def create_alert_conditions (alert_type : String) (getPrice : Except String ℚ)
    (conditions : Conditions) : Except String Conditions :=
  if alert_type == "percentage_change"
      && jvalEqStr (condGet conditions "comparison_base" JVal.null) "baseline"
      && !(condHas conditions "base_price") then do
    let price ← getPrice
    Except.ok (condSet conditions "base_price" (JVal.num price))
  else Except.ok conditions

/-- MonitoringScheduler._is_in_cooldown (and the same computation in
Alert.is_in_cooldown): never in cooldown without a previous trigger,
otherwise in cooldown iff the elapsed seconds are strictly below
cooldown_hours times 3600. -/
def is_in_cooldown (now cooldown_hours : ℚ) (last_triggered : Option ℚ) : Bool :=
  match last_triggered with
  | none => false
  | some t => decide (now - t < cooldown_hours * 3600)

/-- A stored simple alert row as loaded by the monitoring cycle. -/
structure SimpleAlert where
  id : Nat
  asset_symbol : String
  asset_type : String
  condition_type : String
  threshold_price : ℚ
  last_triggered : Option ℚ
  deriving DecidableEq, Repr

/-- Outcome of price_service.get_price for one simple alert: a price, an
APIError (the declared failure of the fetch layer, caught inside
_check_alert), or any other exception (propagates out of _check_alert). -/
inductive FetchResult where
  | ok (price : ℚ) : FetchResult
  | apiError (msg : String) : FetchResult
  | otherError (msg : String) : FetchResult
  deriving DecidableEq, Repr

/-- Summary appended to cycle_stats triggered_alerts for a triggered
simple alert. -/
structure TrigSummary where
  alert_id : Nat
  asset_symbol : String
  current_price : ℚ
  deriving DecidableEq, Repr

/-- MonitoringScheduler._check_alert on one simple alert: skip silently
when in cooldown or when the fetch raises APIError; evaluate the
threshold condition otherwise; on trigger, notification is attempted
(failures swallowed) and last_triggered is set to now.  Any non-APIError
exception is re-raised to the cycle loop. -/
def check_alert (now cooldown_hours : ℚ) (fetch : FetchResult) (a : SimpleAlert) :
    Except String (SimpleAlert × Option TrigSummary) :=
  if is_in_cooldown now cooldown_hours a.last_triggered then
    Except.ok (a, none)
  else
    match fetch with
    | FetchResult.apiError _ => Except.ok (a, none)
    | FetchResult.otherError e => Except.error e
    | FetchResult.ok price =>
      let triggered :=
        (a.condition_type == ">=" && decide (price ≥ a.threshold_price))
        || (a.condition_type == "<=" && decide (price ≤ a.threshold_price))
      if triggered then
        Except.ok ({ a with last_triggered := some now },
          some { alert_id := a.id, asset_symbol := a.asset_symbol, current_price := price })
      else Except.ok (a, none)

/-- The per-cycle statistics dictionary cycle_stats built by
_price_monitoring_job. -/
structure CycleStats where
  alerts_checked : Nat
  alerts_triggered : Nat
  errors : List String
  triggered_alerts : List TrigSummary
  fatal_error : Option String
  deriving DecidableEq, Repr

/-- The empty cycle_stats a cycle starts from. -/
def CycleStats.init : CycleStats :=
  { alerts_checked := 0, alerts_triggered := 0, errors := [], triggered_alerts := [],
    fatal_error := none }

/-- The global MonitoringStats counters accumulated across cycles. -/
structure GlobalStats where
  total_cycles : Nat
  successful_cycles : Nat
  failed_cycles : Nat
  alerts_processed : Nat
  alerts_triggered : Nat
  last_error : Option String
  deriving DecidableEq, Repr

/-- One step of the simple-alert loop of _price_monitoring_job: a normal
return increments alerts_checked (a triggering check already bumped
alerts_triggered and recorded the summary inside _check_alert); an
escaping exception appends to the cycle's error list and leaves the
counters alone. -/
def stepSimple (now cooldown_hours : ℚ) (fetch : Nat → FetchResult)
    (acc : CycleStats × List SimpleAlert) (a : SimpleAlert) :
    CycleStats × List SimpleAlert :=
  match check_alert now cooldown_hours (fetch a.id) a with
  | Except.ok (a', summ) =>
    let cs := acc.1
    ({ cs with
        alerts_checked := cs.alerts_checked + 1,
        alerts_triggered := cs.alerts_triggered + (if summ.isSome then 1 else 0),
        triggered_alerts := cs.triggered_alerts ++ summ.toList },
      acc.2 ++ [a'])
  | Except.error e =>
    ({ acc.1 with
        errors := acc.1.errors ++ ["Error checking alert " ++ toString a.id ++ ": " ++ e] },
      acc.2 ++ [a])

/-- The simple-alert loop of _price_monitoring_job over all loaded active
simple alerts. -/
def processSimpleAlerts (now cooldown_hours : ℚ) (fetch : Nat → FetchResult)
    (alerts : List SimpleAlert) (cs : CycleStats) : CycleStats × List SimpleAlert :=
  alerts.foldl (stepSimple now cooldown_hours fetch) (cs, [])

/-- A row of the append-only alert_trigger_history table as inserted by the
advanced-alert branch of _price_monitoring_job. -/
structure HistoryRow where
  alert_id : Nat
  triggered_at : ℚ
  trigger_price : JVal
  trigger_value : JVal
  conditions_met : Conditions
  notification_sent : Bool
  notification_channels : List String
  notification_status : String
  deriving DecidableEq, Repr

/-- The history row _price_monitoring_job inserts after an advanced alert
triggers (lines 317-335): trigger_value is context change_pct or-else
context value, notification_sent and notification_status are the literal
constants written by the code. -/
def mkHistoryRow (aid : Nat) (now : ℚ) (ctx : Conditions) (enableWhatsapp : Bool) : HistoryRow :=
  { alert_id := aid
    triggered_at := now
    trigger_price := condGet ctx "current_price" JVal.null
    trigger_value := pyOr (condGet ctx "change_pct" JVal.null) (condGet ctx "value" JVal.null)
    conditions_met := ctx
    notification_sent := true
    notification_channels := if enableWhatsapp then ["whatsapp"] else []
    notification_status := "sent" }

/-- Result of processing one advanced alert within a cycle. -/
structure AdvStep where
  alert : AdvAlert
  row : Option HistoryRow
  err : Option String
  triggered : Bool
  notifDelivered : Bool
  deriving DecidableEq, Repr

/-- The advanced-alert branch of _price_monitoring_job for one row:
evaluate; on an escaping exception only record the error; otherwise stamp
last_checked, and when triggered attempt the notification (dispatch
outcome and a failed re-fetch are swallowed), set last_triggered,
increment trigger_count and build the history row. -/
def processAdvAlert (now : ℚ) (menv : MarketEnv) (dispatchOk : Bool) (enableWhatsapp : Bool)
    (a : AdvAlert) : AdvStep :=
  match evaluate_and_maybe_trigger menv a with
  | Except.error e =>
    { alert := a, row := none, err := some ("Error checking advanced alert: " ++ e),
      triggered := false, notifDelivered := false }
  | Except.ok (tr, ctx) =>
    let a1 := { a with last_checked := some now }
    if tr then
      let notif := enableWhatsapp && dispatchOk
        && (match menv.getPrice with | Except.ok _ => true | Except.error _ => false)
      { alert := { a1 with last_triggered := some now, trigger_count := a1.trigger_count + 1 }
        row := some (mkHistoryRow a.id now ctx enableWhatsapp)
        err := none, triggered := true, notifDelivered := notif }
    else
      { alert := a1, row := none, err := none, triggered := false, notifDelivered := false }

/-- One step of the advanced-alert loop, folding the per-alert result into
the cycle statistics, the updated alert list and the history rows. -/
def stepAdv (now : ℚ) (adv : Nat → MarketEnv) (dispatchOk : Nat → Bool) (enableWhatsapp : Bool)
    (acc : CycleStats × List AdvAlert × List HistoryRow) (a : AdvAlert) :
    CycleStats × List AdvAlert × List HistoryRow :=
  let st := processAdvAlert now (adv a.id) (dispatchOk a.id) enableWhatsapp a
  let cs := acc.1
  let cs :=
    match st.err with
    | some e => { cs with errors := cs.errors ++ [e] }
    | none =>
      if st.triggered then { cs with alerts_triggered := cs.alerts_triggered + 1 } else cs
  (cs, acc.2.1 ++ [st.alert], acc.2.2 ++ st.row.toList)

/-- The advanced-alert loop of _price_monitoring_job over all loaded active
advanced alerts. -/
def processAdvAlerts (now : ℚ) (adv : Nat → MarketEnv) (dispatchOk : Nat → Bool)
    (enableWhatsapp : Bool) (alerts : List AdvAlert) (cs : CycleStats) :
    CycleStats × List AdvAlert × List HistoryRow :=
  alerts.foldl (stepAdv now adv dispatchOk enableWhatsapp) (cs, [], [])

/-- The persistent tables the cycle touches. -/
structure Db where
  simple : List SimpleAlert
  adv : List AdvAlert
  history : List HistoryRow
  deriving DecidableEq, Repr

/-- External behaviour during one cycle: a database load failure (cycle
fatal), the per-simple-alert fetch outcome, the per-advanced-alert market
data, the per-advanced-alert notification-channel outcome, and whether
WhatsApp notifications are enabled in the settings. -/
structure CycleEnv where
  loadError : Option String
  fetch : Nat → FetchResult
  adv : Nat → MarketEnv
  dispatchOk : Nat → Bool
  enableWhatsapp : Bool

/-- MonitoringScheduler._price_monitoring_job: bump total_cycles; a load
failure fails the cycle; with no active alerts of either family complete
immediately; otherwise run the simple loop, fold its checked and
triggered counts into the global statistics, then run the advanced loop
(whose triggers reach only the cycle statistics), and mark the cycle
successful. -/
def price_monitoring_job (now cooldown_hours : ℚ) (env : CycleEnv)
    (g : GlobalStats) (db : Db) : GlobalStats × Db × CycleStats :=
  let g := { g with total_cycles := g.total_cycles + 1 }
  match env.loadError with
  | some e =>
    let msg := "Price monitoring cycle failed: " ++ e
    ({ g with failed_cycles := g.failed_cycles + 1, last_error := some msg }, db,
      { CycleStats.init with fatal_error := some msg })
  | none =>
    if db.simple.isEmpty && db.adv.isEmpty then
      ({ g with successful_cycles := g.successful_cycles + 1 }, db, CycleStats.init)
    else
      let p := processSimpleAlerts now cooldown_hours env.fetch db.simple CycleStats.init
      let g := { g with
        alerts_processed := g.alerts_processed + p.1.alerts_checked,
        alerts_triggered := g.alerts_triggered + p.1.alerts_triggered }
      let q := processAdvAlerts now env.adv env.dispatchOk env.enableWhatsapp db.adv p.1
      let g := { g with successful_cycles := g.successful_cycles + 1 }
      (g, { simple := p.2, adv := q.2.1, history := db.history ++ q.2.2 }, q.1)

/-! Concrete market-data environments used in the theorem statements: the
unused provider calls are left as errors so that a theorem can only rely
on the data its code path really fetches. -/

/-- Environment in which every provider call fails. -/
def errEnv : MarketEnv :=
  { getPrice := Except.error "not fetched", globalQuote := Except.error "not fetched",
    cgPriceChange := Except.error "not fetched", rsiSeries := Except.error "not fetched",
    rsiPoint := Except.error "not fetched", smaSeries := Except.error "not fetched",
    smaPoint := Except.error "not fetched" }

/-- Environment where the 24h crypto fetch returns price p and change c. -/
def env24 (p c : ℚ) : MarketEnv := { errEnv with cgPriceChange := Except.ok (p, c) }

/-- Environment where the single-point RSI fetch returns v. -/
def envRsiPoint (v : ℚ) : MarketEnv := { errEnv with rsiPoint := Except.ok v }

/-- Environment where the two-point RSI series fetch returns s. -/
def envRsiSeries (s : List ℚ) : MarketEnv := { errEnv with rsiSeries := Except.ok s }

/-- Environment where the current-price fetch returns p. -/
def envPrice (p : ℚ) : MarketEnv := { errEnv with getPrice := Except.ok p }

/-- Conditions of a percentage-change alert with an explicit direction and
threshold (comparison_base left to its 24h default). -/
def pctCond (direction : String) (t : ℚ) : Conditions :=
  [("direction", JVal.str direction), ("change_percentage", JVal.num t)]

/-- Conditions of a technical-indicator alert (period left to its default). -/
def techCond (indicator operator : String) (t : ℚ) : Conditions :=
  [("indicator", JVal.str indicator), ("operator", JVal.str operator),
   ("threshold", JVal.num t)]

/-- C3: the cooldown check returns false without a last_triggered
timestamp, otherwise returns true iff now minus last_triggered is
strictly below cooldown_hours times 3600 seconds; at the exact boundary
it returns false. -/
theorem cooldown_gate_strict (now ch t : ℚ) :
    is_in_cooldown now ch none = false
    ∧ (is_in_cooldown now ch (some t) = true ↔ now - t < ch * 3600)
    ∧ (now - t = ch * 3600 → is_in_cooldown now ch (some t) = false) := by
  refine ⟨rfl, by simp [is_in_cooldown], ?_⟩
  intro h
  simp [is_in_cooldown, h]

/-- Witness for C3: with a one-hour cooldown, elapsed exactly 3600 seconds
is out of cooldown and elapsed 3599 seconds is in cooldown. -/
theorem cooldown_gate_strict_witness :
    is_in_cooldown 3600 1 (some 0) = false ∧ is_in_cooldown 3599 1 (some 0) = true :=
  ⟨(cooldown_gate_strict 3600 1 0).2.2 (by norm_num),
   (cooldown_gate_strict 3599 1 0).2.1.mpr (by norm_num)⟩

/-- C5: the percentage-change evaluator triggers for direction up iff
change_pct is at least the threshold, for direction down iff change_pct
is at most minus the threshold magnitude, and for direction any iff the
change magnitude is at least the threshold magnitude. -/
theorem pct_direction_semantics (c t p : ℚ) :
    (triggeredOf (evalPercentageChange (env24 p c) AssetType.crypto (pctCond "up" t))
        = some (decide (c ≥ t)))
    ∧ (triggeredOf (evalPercentageChange (env24 p c) AssetType.crypto (pctCond "down" t))
        = some (decide (c ≤ -|t|)))
    ∧ (triggeredOf (evalPercentageChange (env24 p c) AssetType.crypto (pctCond "any" t))
        = some (decide (|c| ≥ |t|))) := by
  refine ⟨?_, ?_, ?_⟩ <;>
    simp [evalPercentageChange, env24, errEnv, pctCond, condGet, pyFloat, pctMeets,
      jvalEqStr, triggeredOf, bind, Except.bind, pure, Except.pure, Except.map]

/-- C10: the single-point indicator operators are non-strict: greater_than
triggers iff the latest value is at least the threshold and less_than
triggers iff it is at most the threshold. -/
theorem tech_single_point_nonstrict (v t : ℚ) :
    (triggeredOf (evalTechnicalIndicator (envRsiPoint v) AssetType.stock
        (techCond "rsi" "greater_than" t)) = some (decide (v ≥ t)))
    ∧ (triggeredOf (evalTechnicalIndicator (envRsiPoint v) AssetType.stock
        (techCond "rsi" "less_than" t)) = some (decide (v ≤ t))) := by
  constructor <;>
    simp [evalTechnicalIndicator, envRsiPoint, errEnv, techCond, condGet, pyFloat, pyInt,
      jvalEqStr, triggeredOf, bind, Except.bind, pure, Except.pure, Except.map]

/-- C4: crosses_above triggers exactly when prior is strictly below the
threshold and the current value is at least it, crosses_below exactly
when prior is strictly above and the current value is at most it, and a
series of fewer than two points evaluates to not-triggered with the
insufficient_points reason. -/
theorem tech_crossing_semantics (p c t : ℚ) (s : List ℚ) (hs : s.length < 2) :
    ((triggeredOf (evalTechnicalIndicator (envRsiSeries [p, c]) AssetType.stock
        (techCond "rsi" "crosses_above" t)) = some true) ↔ (p < t ∧ t ≤ c))
    ∧ ((triggeredOf (evalTechnicalIndicator (envRsiSeries [p, c]) AssetType.stock
        (techCond "rsi" "crosses_below" t)) = some true) ↔ (p > t ∧ t ≥ c))
    ∧ (evalTechnicalIndicator (envRsiSeries s) AssetType.stock
        (techCond "rsi" "crosses_above" t)
        = Except.ok (false, [("reason", JVal.str "insufficient_points")])) := by
  refine ⟨?_, ?_, ?_⟩ <;>
    simp [evalTechnicalIndicator, envRsiSeries, errEnv, techCond, condGet, pyFloat, pyInt,
      jvalEqStr, triggeredOf, hs, bind, Except.bind, pure, Except.pure, Except.map]

/-- Witness for C4: the series 65 then 72 crosses above threshold 70, and
the empty series reports insufficient_points. -/
theorem tech_crossing_semantics_witness :
    (triggeredOf (evalTechnicalIndicator (envRsiSeries [65, 72]) AssetType.stock
        (techCond "rsi" "crosses_above" 70)) = some true)
    ∧ (evalTechnicalIndicator (envRsiSeries []) AssetType.stock
        (techCond "rsi" "crosses_above" 70)
        = Except.ok (false, [("reason", JVal.str "insufficient_points")])) :=
  ⟨(tech_crossing_semantics 65 72 70 [] (by decide)).1.mpr (by norm_num),
   (tech_crossing_semantics 65 72 70 [] (by decide)).2.2⟩

/-- C1 (amended): the evaluator returns a (triggered, context) pair without
raising for an unknown alert kind, an unsupported indicator, and
insufficient indicator data points, each time with a diagnostic reason;
malformed numeric condition parameters are excluded here because they do
raise (see the counterexample). -/
theorem advanced_eval_diagnostic_no_raise (menv menv2 : MarketEnv) (a : AdvAlert)
    (t : ℚ) (s : List ℚ)
    (hk1 : a.alert_type ≠ "percentage_change") (hk2 : a.alert_type ≠ "technical_indicator")
    (hs : s.length < 2) :
    (evaluate_and_maybe_trigger menv a
        = Except.ok (false, [("reason", JVal.str "unsupported_type")]))
    ∧ (evalTechnicalIndicator menv2 AssetType.stock (techCond "macd" "greater_than" t)
        = Except.ok (false, [("reason", JVal.str "unsupported_indicator:macd")]))
    ∧ (evalTechnicalIndicator (envRsiSeries s) AssetType.stock (techCond "rsi" "crosses_above" t)
        = Except.ok (false, [("reason", JVal.str "insufficient_points")])) := by
  refine ⟨?_, ?_, ?_⟩
  · simp [evaluate_and_maybe_trigger, hk1, hk2]
  · simp [evalTechnicalIndicator, techCond, condGet, pyFloat, pyInt, jvalEqStr, pyStr,
      bind, Except.bind, pure, Except.pure, Except.map]
  · simp [evalTechnicalIndicator, envRsiSeries, errEnv, techCond, condGet, pyFloat, pyInt,
      jvalEqStr, hs, bind, Except.bind, pure, Except.pure, Except.map]

/-- Witness for C1 (amended): an alert of unknown kind, a macd alert and an
empty RSI series all report a reason without raising. -/
theorem advanced_eval_diagnostic_no_raise_witness :
    (evaluate_and_maybe_trigger errEnv
        { id := 9, asset_symbol := "AAPL", asset_type := "stock",
          alert_type := "volume_spike", conditions := [],
          last_triggered := none, last_checked := none, trigger_count := 0 }
        = Except.ok (false, [("reason", JVal.str "unsupported_type")]))
    ∧ (evalTechnicalIndicator errEnv AssetType.stock (techCond "macd" "greater_than" 5)
        = Except.ok (false, [("reason", JVal.str "unsupported_indicator:macd")]))
    ∧ (evalTechnicalIndicator (envRsiSeries []) AssetType.stock
          (techCond "rsi" "crosses_above" 5)
        = Except.ok (false, [("reason", JVal.str "insufficient_points")])) :=
  advanced_eval_diagnostic_no_raise errEnv errEnv
    { id := 9, asset_symbol := "AAPL", asset_type := "stock",
      alert_type := "volume_spike", conditions := [],
      last_triggered := none, last_checked := none, trigger_count := 0 }
    5 [] (by decide) (by decide) (by decide)

/-- Counterexample for C1 as stated: a percentage-change alert whose
change_percentage parameter is the non-numeric string abc makes the
evaluator raise a ValueError out of the evaluation path instead of
returning a non-triggering result. -/
theorem advanced_eval_malformed_raises :
    evaluate_and_maybe_trigger (env24 100 5)
      { id := 1, asset_symbol := "bitcoin", asset_type := "crypto",
        alert_type := "percentage_change",
        conditions := [("change_percentage", JVal.str "abc")],
        last_triggered := none, last_checked := none, trigger_count := 0 }
      = Except.error "ValueError: could not convert string to float: abc" := by
  rfl

/-- Conditions of a baseline percentage alert before creation: baseline
comparison, positive threshold, no base_price yet. -/
def baselineConds (t : ℚ) (dir : JVal) : Conditions :=
  [("comparison_base", JVal.str "baseline"), ("change_percentage", JVal.num t),
   ("direction", dir)]

/-- C6 (amended): creating a baseline percentage alert without base_price
persists the creation-time price as base_price, and an evaluation at an
unchanged price computes change_pct zero and does not trigger for any
positive threshold, whether base_price was persisted or (still absent)
the current price is used transiently as the base; the evaluation never
writes the captured base back (see the counterexample). -/
theorem baseline_roundtrip_amended (p t : ℚ) (dir : JVal) (ht : 0 < t) :
    (create_alert_conditions "percentage_change" (Except.ok p) (baselineConds t dir)
        = Except.ok (condSet (baselineConds t dir) "base_price" (JVal.num p)))
    ∧ (evalPercentageChange (envPrice p) AssetType.crypto
          (condSet (baselineConds t dir) "base_price" (JVal.num p))
        = Except.ok (false,
            [("current_price", JVal.num p), ("base_price", JVal.num p),
             ("change_pct", JVal.num 0)]))
    ∧ (evalPercentageChange (envPrice p) AssetType.crypto (baselineConds t dir)
        = Except.ok (false,
            [("current_price", JVal.num p), ("base_price", JVal.num p),
             ("change_pct", JVal.num 0)])) := by
  have h1 : ¬((0 : ℚ) ≥ t) := not_le.mpr ht
  have habs : (0 : ℚ) < |t| := abs_pos.mpr ht.ne'
  have h2 : ¬((0 : ℚ) ≤ -|t|) := not_le.mpr (neg_neg_of_pos habs)
  have h3 : ¬(|(0 : ℚ)| ≥ |t|) := by simpa using not_le.mpr habs
  refine ⟨rfl, ?_, ?_⟩ <;>
    simp [evalPercentageChange, envPrice, errEnv, baselineConds, condSet, condGet, pyFloat,
      pctMeets, jvalEqStr, bind, Except.bind, pure, Except.pure, sub_self, zero_div,
      zero_mul, ite_self, h1, h2, h3, abs_zero, ht.ne']

/-- Witness for C6 (amended): price 100, threshold 5 percent, direction
any. -/
theorem baseline_roundtrip_amended_witness :
    (create_alert_conditions "percentage_change" (Except.ok 100)
          (baselineConds 5 (JVal.str "any"))
        = Except.ok (condSet (baselineConds 5 (JVal.str "any")) "base_price" (JVal.num 100)))
    ∧ (evalPercentageChange (envPrice 100) AssetType.crypto
          (condSet (baselineConds 5 (JVal.str "any")) "base_price" (JVal.num 100))
        = Except.ok (false,
            [("current_price", JVal.num 100), ("base_price", JVal.num 100),
             ("change_pct", JVal.num 0)])) :=
  ⟨(baseline_roundtrip_amended 100 5 (JVal.str "any") (by norm_num)).1,
   (baseline_roundtrip_amended 100 5 (JVal.str "any") (by norm_num)).2.1⟩

/-- A stored baseline percentage alert that never got a base_price. -/
def advBaselineNoBase : AdvAlert :=
  { id := 7, asset_symbol := "bitcoin", asset_type := "crypto",
    alert_type := "percentage_change", conditions := baselineConds 5 (JVal.str "up"),
    last_triggered := none, last_checked := none, trigger_count := 0 }

/-- Counterexample for C6 as stated: evaluating a baseline alert whose
stored conditions still lack base_price succeeds (using the current price
as the base transiently), but the cycle persists nothing back: the stored
conditions after the evaluation are unchanged and still have no
base_price. -/
theorem lazy_baseline_not_persisted :
    (processAdvAlert 1000 (envPrice 100) true true advBaselineNoBase).err = none
    ∧ (processAdvAlert 1000 (envPrice 100) true true advBaselineNoBase).alert.conditions
        = advBaselineNoBase.conditions
    ∧ condHas (processAdvAlert 1000 (envPrice 100) true true advBaselineNoBase).alert.conditions
        "base_price" = false := by
  have h5 : ¬((0 : ℚ) ≥ 5) := by norm_num
  simp [processAdvAlert, evaluate_and_maybe_trigger, evalPercentageChange, envPrice, errEnv,
    advBaselineNoBase, baselineConds, condGet, condHas, pyFloat, pctMeets, jvalEqStr,
    bind, Except.bind, pure, Except.pure, h5]

/-- Trigger bookkeeping and the evaluation outcome do not depend on the
alert's stored trigger state: the evaluator reads only the kind, asset
class and conditions. -/
theorem eval_ignores_trigger_state (menv : MarketEnv) (a : AdvAlert)
    (lt lc : Option ℚ) (tc : Nat) :
    evaluate_and_maybe_trigger menv
        { a with last_triggered := lt, last_checked := lc, trigger_count := tc }
      = evaluate_and_maybe_trigger menv a := rfl

/-- C7 (amended): when an advanced alert triggers, last_triggered and
trigger_count are updated and a history row is appended whatever the
dispatch outcome; but the appended row always records
notification_status sent and notification_sent true, the literal
constants of the insert, not the actual dispatch outcome. -/
theorem trigger_bookkeeping_survives_dispatch_failure
    (now : ℚ) (menv : MarketEnv) (ew : Bool) (a : AdvAlert) (ctx : Conditions)
    (heval : evaluate_and_maybe_trigger menv a = Except.ok (true, ctx)) :
    ∀ d : Bool,
      (processAdvAlert now menv d ew a).alert.last_triggered = some now
      ∧ (processAdvAlert now menv d ew a).alert.trigger_count = a.trigger_count + 1
      ∧ (processAdvAlert now menv d ew a).row = some (mkHistoryRow a.id now ctx ew)
      ∧ (mkHistoryRow a.id now ctx ew).notification_sent = true
      ∧ (mkHistoryRow a.id now ctx ew).notification_status = "sent" := by
  intro d
  simp [processAdvAlert, heval, mkHistoryRow]

/-- A stored advanced percentage alert that triggers on a 9 percent move
against a 5 percent threshold. -/
def advPctTrig : AdvAlert :=
  { id := 3, asset_symbol := "bitcoin", asset_type := "crypto",
    alert_type := "percentage_change",
    conditions := [("change_percentage", JVal.num 5), ("direction", JVal.str "up")],
    last_triggered := none, last_checked := none, trigger_count := 0 }

/-- Witness for C7 (amended): the triggering alert with failed dispatch
still gets its bookkeeping and a history row. -/
theorem trigger_bookkeeping_survives_dispatch_failure_witness :
    (processAdvAlert 1000 (env24 100 9) false true advPctTrig).alert.last_triggered = some 1000
    ∧ (processAdvAlert 1000 (env24 100 9) false true advPctTrig).alert.trigger_count
        = advPctTrig.trigger_count + 1
    ∧ (processAdvAlert 1000 (env24 100 9) false true advPctTrig).row
        = some (mkHistoryRow advPctTrig.id 1000
            [("current_price", JVal.num 100), ("change_pct", JVal.num 9)] true)
    ∧ (mkHistoryRow advPctTrig.id 1000
        [("current_price", JVal.num 100), ("change_pct", JVal.num 9)] true).notification_sent
        = true
    ∧ (mkHistoryRow advPctTrig.id 1000
        [("current_price", JVal.num 100), ("change_pct", JVal.num 9)] true).notification_status
        = "sent" :=
  trigger_bookkeeping_survives_dispatch_failure 1000 (env24 100 9) true advPctTrig
    [("current_price", JVal.num 100), ("change_pct", JVal.num 9)] (by rfl) false

/-- Counterexample for C7 as stated: the dispatch fails (nothing is
delivered) yet the appended history row records notification_status sent
rather than failed. -/
theorem history_status_ignores_dispatch_failure :
    (processAdvAlert 1000 (env24 100 9) false true advPctTrig).notifDelivered = false
    ∧ ((processAdvAlert 1000 (env24 100 9) false true advPctTrig).row.map
        HistoryRow.notification_status) = some "sent"
    ∧ ((processAdvAlert 1000 (env24 100 9) false true advPctTrig).row.map
        HistoryRow.notification_sent) = some true := by
  decide

/-- Shape of the advanced-alert processing step when the evaluator reports
a trigger: bookkeeping fields are stamped, the history row is built from
the context, and the notification outcome is recorded nowhere in the
database effects. -/
theorem processAdvAlert_triggered (now : ℚ) (menv : MarketEnv) (d ew : Bool) (a : AdvAlert)
    (ctx : Conditions) (h : evaluate_and_maybe_trigger menv a = Except.ok (true, ctx)) :
    processAdvAlert now menv d ew a =
      { alert :=
          { a with
            last_checked := some now
            last_triggered := some now
            trigger_count := a.trigger_count + 1 }
        row := some (mkHistoryRow a.id now ctx ew)
        err := none
        triggered := true
        notifDelivered := ew && d
          && (match menv.getPrice with
              | Except.ok _ => true
              | Except.error _ => false) } := by
  simp [processAdvAlert, h]

/-- C9: the advanced-alert path never consults last_triggered: processing
is identical for every stored last_triggered value, and an alert whose
condition keeps evaluating true triggers in two consecutive cycles, each
time appending a history row and incrementing trigger_count. -/
theorem advanced_path_ignores_cooldown
    (now₁ now₂ : ℚ) (menv : MarketEnv) (d ew : Bool) (a : AdvAlert) (ctx : Conditions)
    (heval : evaluate_and_maybe_trigger menv a = Except.ok (true, ctx)) :
    ∀ lt : Option ℚ,
      (processAdvAlert now₁ menv d ew { a with last_triggered := lt }).triggered = true
      ∧ (processAdvAlert now₁ menv d ew { a with last_triggered := lt }).row
          = some (mkHistoryRow a.id now₁ ctx ew)
      ∧ (processAdvAlert now₂ menv d ew
            (processAdvAlert now₁ menv d ew { a with last_triggered := lt }).alert).triggered
          = true
      ∧ (processAdvAlert now₂ menv d ew
            (processAdvAlert now₁ menv d ew
              { a with last_triggered := lt }).alert).alert.trigger_count
          = a.trigger_count + 2
      ∧ (processAdvAlert now₂ menv d ew
            (processAdvAlert now₁ menv d ew { a with last_triggered := lt }).alert).row
          = some (mkHistoryRow a.id now₂ ctx ew) := by
  intro lt
  obtain ⟨aid, asym, aty, alt, conds, lt0, lc0, tc0⟩ := a
  have h₁ : evaluate_and_maybe_trigger menv
      (⟨aid, asym, aty, alt, conds, lt, lc0, tc0⟩ : AdvAlert) = Except.ok (true, ctx) := heval
  have e₁ := processAdvAlert_triggered now₁ menv d ew _ ctx h₁
  have h₂ : evaluate_and_maybe_trigger menv
      (⟨aid, asym, aty, alt, conds, some now₁, some now₁, tc0 + 1⟩ : AdvAlert)
      = Except.ok (true, ctx) := heval
  have e₂ := processAdvAlert_triggered now₂ menv d ew _ ctx h₂
  refine ⟨?_, ?_, ?_, ?_, ?_⟩ <;> simp [e₁, e₂, mkHistoryRow]

/-- Witness for C9: the triggering percentage alert, with a stored
last_triggered already set, still triggers in two consecutive cycles. -/
theorem advanced_path_ignores_cooldown_witness :
    (processAdvAlert 10 (env24 100 9) true true
        { advPctTrig with last_triggered := some 0 }).triggered = true
    ∧ (processAdvAlert 10 (env24 100 9) true true
          { advPctTrig with last_triggered := some 0 }).row
        = some (mkHistoryRow advPctTrig.id 10
            [("current_price", JVal.num 100), ("change_pct", JVal.num 9)] true)
    ∧ (processAdvAlert 20 (env24 100 9) true true
          (processAdvAlert 10 (env24 100 9) true true
            { advPctTrig with last_triggered := some 0 }).alert).triggered = true
    ∧ (processAdvAlert 20 (env24 100 9) true true
          (processAdvAlert 10 (env24 100 9) true true
            { advPctTrig with last_triggered := some 0 }).alert).alert.trigger_count
        = advPctTrig.trigger_count + 2
    ∧ (processAdvAlert 20 (env24 100 9) true true
          (processAdvAlert 10 (env24 100 9) true true
            { advPctTrig with last_triggered := some 0 }).alert).row
        = some (mkHistoryRow advPctTrig.id 20
            [("current_price", JVal.num 100), ("change_pct", JVal.num 9)] true) :=
  advanced_path_ignores_cooldown 10 20 (env24 100 9) true true advPctTrig
    [("current_price", JVal.num 100), ("change_pct", JVal.num 9)] (by rfl) (some 0)

/-- All-zero global statistics, the state right after process start. -/
def gZero : GlobalStats :=
  { total_cycles := 0, successful_cycles := 0, failed_cycles := 0, alerts_processed := 0,
    alerts_triggered := 0, last_error := none }

/-- Simple alert whose price fetch will fail in the mixed-outcome cycle. -/
def alertA : SimpleAlert :=
  { id := 1, asset_symbol := "AAPL", asset_type := "stock", condition_type := ">=",
    threshold_price := 100, last_triggered := none }

/-- Simple alert that evaluates successfully and triggers at price 60. -/
def alertB : SimpleAlert :=
  { id := 2, asset_symbol := "MSFT", asset_type := "stock", condition_type := ">=",
    threshold_price := 50, last_triggered := none }

/-- Database holding only the two simple alerts. -/
def dbTwoSimple : Db := { simple := [alertA, alertB], adv := [], history := [] }

/-- Cycle environment where alert 1's fetch raises APIError and alert 2
fetches price 60. -/
def envFetchApiErr : CycleEnv :=
  { loadError := none
    fetch := fun i => if i == 1 then FetchResult.apiError "boom" else FetchResult.ok 60
    adv := fun _ => errEnv
    dispatchOk := fun _ => true
    enableWhatsapp := true }

/-- Cycle environment where alert 1's check raises a non-APIError
exception and alert 2 fetches price 60. -/
def envFetchOtherErr : CycleEnv :=
  { envFetchApiErr with
    fetch := fun i => if i == 1 then FetchResult.otherError "boom" else FetchResult.ok 60 }

/-- C2 (amended): with one failing and one succeeding simple alert the
cycle still reports the successful alert's trigger; but the two failure
modes differ: a fetch failure raised as APIError is swallowed inside the
per-alert check, contributing no error entry and still counting toward
alerts_checked, while a non-APIError exception adds exactly one error
entry and is excluded from alerts_checked; alerts_triggered counts only
alerts whose condition was actually evaluated and met. -/
theorem cycle_partial_failure_amended (now ch pB : ℚ) (g : GlobalStats)
    (hist : List HistoryRow) (a b : SimpleAlert) (env₁ env₂ : CycleEnv) (ea eo : String)
    (hload₁ : env₁.loadError = none) (hload₂ : env₂.loadError = none)
    (hca : is_in_cooldown now ch a.last_triggered = false)
    (hcb : is_in_cooldown now ch b.last_triggered = false)
    (hfa₁ : env₁.fetch a.id = FetchResult.apiError ea)
    (hfb₁ : env₁.fetch b.id = FetchResult.ok pB)
    (hfa₂ : env₂.fetch a.id = FetchResult.otherError eo)
    (hfb₂ : env₂.fetch b.id = FetchResult.ok pB)
    (hbc : b.condition_type = ">=") (hbp : pB ≥ b.threshold_price) :
    ((price_monitoring_job now ch env₁ g
        { simple := [a, b], adv := [], history := hist }).2.2.errors = []
      ∧ (price_monitoring_job now ch env₁ g
          { simple := [a, b], adv := [], history := hist }).2.2.alerts_checked = 2
      ∧ (price_monitoring_job now ch env₁ g
          { simple := [a, b], adv := [], history := hist }).2.2.alerts_triggered = 1
      ∧ (price_monitoring_job now ch env₁ g
          { simple := [a, b], adv := [], history := hist }).2.2.triggered_alerts
        = [{ alert_id := b.id, asset_symbol := b.asset_symbol, current_price := pB }])
    ∧ ((price_monitoring_job now ch env₂ g
          { simple := [a, b], adv := [], history := hist }).2.2.errors
        = ["Error checking alert " ++ toString a.id ++ ": " ++ eo]
      ∧ (price_monitoring_job now ch env₂ g
          { simple := [a, b], adv := [], history := hist }).2.2.alerts_checked = 1
      ∧ (price_monitoring_job now ch env₂ g
          { simple := [a, b], adv := [], history := hist }).2.2.alerts_triggered = 1
      ∧ (price_monitoring_job now ch env₂ g
          { simple := [a, b], adv := [], history := hist }).2.2.triggered_alerts
        = [{ alert_id := b.id, asset_symbol := b.asset_symbol, current_price := pB }]) := by
  refine ⟨?_, ?_⟩ <;>
    simp [price_monitoring_job, hload₁, hload₂, processSimpleAlerts, processAdvAlerts,
      stepSimple, check_alert, hca, hcb, hfa₁, hfb₁, hfa₂, hfb₂, hbc, hbp, CycleStats.init]

/-- Witness for C2 (amended): the concrete two-alert cycle with price 60
against threshold 50. -/
theorem cycle_partial_failure_amended_witness :
    ((price_monitoring_job 1000 24 envFetchApiErr gZero dbTwoSimple).2.2.errors = []
      ∧ (price_monitoring_job 1000 24 envFetchApiErr gZero dbTwoSimple).2.2.alerts_checked = 2
      ∧ (price_monitoring_job 1000 24 envFetchApiErr gZero dbTwoSimple).2.2.alerts_triggered
        = 1
      ∧ (price_monitoring_job 1000 24 envFetchApiErr gZero dbTwoSimple).2.2.triggered_alerts
        = [{ alert_id := alertB.id, asset_symbol := alertB.asset_symbol,
             current_price := 60 }])
    ∧ ((price_monitoring_job 1000 24 envFetchOtherErr gZero dbTwoSimple).2.2.errors
        = ["Error checking alert " ++ toString alertA.id ++ ": " ++ "boom"]
      ∧ (price_monitoring_job 1000 24 envFetchOtherErr gZero dbTwoSimple).2.2.alerts_checked
        = 1
      ∧ (price_monitoring_job 1000 24 envFetchOtherErr gZero dbTwoSimple).2.2.alerts_triggered
        = 1
      ∧ (price_monitoring_job 1000 24 envFetchOtherErr gZero dbTwoSimple).2.2.triggered_alerts
        = [{ alert_id := alertB.id, asset_symbol := alertB.asset_symbol,
             current_price := 60 }]) :=
  cycle_partial_failure_amended 1000 24 60 gZero [] alertA alertB envFetchApiErr
    envFetchOtherErr "boom" "boom" rfl rfl rfl rfl rfl rfl rfl rfl rfl (by norm_num [alertB])

/-- Counterexample for C2 as stated: in the cycle where alert 1's fetch
raises APIError and alert 2 triggers at price 60, the errors list is
empty (the claim demands exactly one entry for the failing alert) and
alerts_checked is 2 (the claim demands it count only the one
successfully evaluated alert). -/
theorem cycle_fetch_error_uncounted :
    (price_monitoring_job 1000 24 envFetchApiErr gZero dbTwoSimple).2.2.errors.length = 0
    ∧ (price_monitoring_job 1000 24 envFetchApiErr gZero dbTwoSimple).2.2.alerts_checked
      = 2 := by
  have h60 : (60 : ℚ) ≥ 50 := by norm_num
  simp [price_monitoring_job, envFetchApiErr, dbTwoSimple, alertA, alertB, gZero,
    processSimpleAlerts, processAdvAlerts, stepSimple, check_alert, is_in_cooldown,
    CycleStats.init, h60]

/-- One advanced-alert step never changes the cycle's alerts_checked
counter. -/
theorem stepAdv_preserves_checked (now : ℚ) (adv : Nat → MarketEnv) (d : Nat → Bool)
    (ew : Bool) (acc : CycleStats × List AdvAlert × List HistoryRow) (a : AdvAlert) :
    (stepAdv now adv d ew acc a).1.alerts_checked = acc.1.alerts_checked := by
  simp only [stepAdv]
  split
  · rfl
  · split <;> rfl

/-- The advanced-alert loop never changes the cycle's alerts_checked
counter. -/
theorem processAdvAlerts_preserves_checked (now : ℚ) (adv : Nat → MarketEnv)
    (d : Nat → Bool) (ew : Bool) (l : List AdvAlert) (cs : CycleStats) :
    (processAdvAlerts now adv d ew l cs).1.alerts_checked = cs.alerts_checked := by
  have key : ∀ acc : CycleStats × List AdvAlert × List HistoryRow,
      (l.foldl (stepAdv now adv d ew) acc).1.alerts_checked = acc.1.alerts_checked := by
    induction l with
    | nil => intro acc; rfl
    | cons x xs ih => intro acc; rw [List.foldl_cons, ih, stepAdv_preserves_checked]
  exact key (cs, [], [])

/-- C8 (amended): after a non-fatal cycle, global alerts_processed grows by
exactly the cycle's alerts_checked, but global alerts_triggered grows by
only the simple-alert triggers (the snapshot taken before the advanced
loop runs); triggers contributed by advanced alerts reach only the cycle
statistics. -/
theorem global_stats_accumulation_amended (now ch : ℚ) (env : CycleEnv) (g : GlobalStats)
    (db : Db) (h : env.loadError = none) :
    (price_monitoring_job now ch env g db).1.alerts_processed
        = g.alerts_processed + (price_monitoring_job now ch env g db).2.2.alerts_checked
    ∧ (price_monitoring_job now ch env g db).1.alerts_triggered
        = g.alerts_triggered
          + (processSimpleAlerts now ch env.fetch db.simple
              CycleStats.init).1.alerts_triggered := by
  simp only [price_monitoring_job, h]
  split
  · rename_i hemp
    have h1 : db.simple.isEmpty = true := by
      rw [Bool.and_eq_true] at hemp
      exact hemp.1
    have hs : db.simple = [] := by
      cases hd : db.simple
      · rfl
      · rw [hd] at h1
        simp at h1
    simp [hs, processSimpleAlerts, CycleStats.init]
  · exact ⟨by simp [processAdvAlerts_preserves_checked], rfl⟩

/-- Cycle environment whose advanced market data makes advPctTrig
trigger. -/
def envAdvTrig : CycleEnv :=
  { loadError := none
    fetch := fun _ => FetchResult.apiError "unused"
    adv := fun _ => env24 100 9
    dispatchOk := fun _ => true
    enableWhatsapp := true }

/-- Witness for C8 (amended): the accumulation identities at the concrete
advanced-only cycle. -/
theorem global_stats_accumulation_amended_witness :
    (price_monitoring_job 1000 24 envAdvTrig gZero
        { simple := [], adv := [advPctTrig], history := [] }).1.alerts_processed
      = gZero.alerts_processed
        + (price_monitoring_job 1000 24 envAdvTrig gZero
            { simple := [], adv := [advPctTrig], history := [] }).2.2.alerts_checked
    ∧ (price_monitoring_job 1000 24 envAdvTrig gZero
        { simple := [], adv := [advPctTrig], history := [] }).1.alerts_triggered
      = gZero.alerts_triggered
        + (processSimpleAlerts 1000 24 envAdvTrig.fetch []
            CycleStats.init).1.alerts_triggered :=
  global_stats_accumulation_amended 1000 24 envAdvTrig gZero
    { simple := [], adv := [advPctTrig], history := [] } rfl

/-- Counterexample for C8 as stated: a cycle whose only activity is one
triggering advanced alert ends with cycle alerts_triggered 1 while the
global alerts_triggered counter stays 0, so the global counter does not
grow by the cycle's total triggers. -/
theorem global_triggered_misses_advanced :
    (price_monitoring_job 1000 24 envAdvTrig gZero
        { simple := [], adv := [advPctTrig], history := [] }).1.alerts_triggered = 0
    ∧ (price_monitoring_job 1000 24 envAdvTrig gZero
        { simple := [], adv := [advPctTrig], history := [] }).2.2.alerts_triggered = 1 := by
  have h9 : (9 : ℚ) ≥ 5 := by norm_num
  simp [price_monitoring_job, envAdvTrig, gZero, processSimpleAlerts, processAdvAlerts,
    stepAdv, processAdvAlert, evaluate_and_maybe_trigger, evalPercentageChange, env24,
    errEnv, advPctTrig, condGet, pyFloat, pctMeets, jvalEqStr, CycleStats.init,
    mkHistoryRow, bind, Except.bind, pure, Except.pure, h9]

end StockAlerts
